import Mathlib

/-!
Shallow embedding of the Aporia pipeline (src/aporia.py) — a one-shot
ETL-and-publish script that fetches two JSON datasets, normalizes them,
publishes them to a spreadsheet (tabs, data, report formulas, charts) and
replicates the tabs to a target spreadsheet.

Each definition below embeds one piece of the Python source; remote API
state (Drive files, spreadsheet tabs) is modelled as explicit lists that
the operations transform, and fallible operations return Option/Except.
-/

namespace Aporia

/- ===== Layout planner: chart data ranges (add_charts, lines 520-524) ===== -/

/-- Python `x or 0` applied to an optional integer row count: `None` and `0`
are falsy and give `0`; any other value passes through. -/
def pyOrZero (x : Option Int) : Int := x.getD 0

/-- A half-open row range of a chart source, mirroring the
`startRowIndex`/`endRowIndex` fields of the Sheets API range dictionaries
built in `add_charts`. -/
structure ChartRowRange where
  startRowIndex : Int
  endRowIndex : Int
deriving DecidableEq

/-- The row-range arithmetic of `add_charts` (src/aporia.py lines 520-524):
`start = origin; end = start + 1 + max(count or 0, 0)`.  In the source the
origin is the constant `2`; it is kept as a parameter so the arithmetic can
be stated for every origin. -/
def chartDataRange (count : Option Int) (origin : Int) : ChartRowRange :=
  { startRowIndex := origin, endRowIndex := origin + 1 + max (pyOrZero count) 0 }

/-- `buyer_start = 2; buyer_end = buyer_start + 1 + max(buyers_count or 0, 0)`
(src/aporia.py lines 521-522). -/
def buyerChartRange (buyers_count : Option Int) : ChartRowRange :=
  chartDataRange buyers_count 2

/-- `camp_start = 2; camp_end = camp_start + 1 + max(top_n or 0, 0)`
(src/aporia.py lines 523-524).  Note the campaign range is driven by the
`top_n` parameter (25 in `main`), not by the campaign dataset row count. -/
def campChartRange (top_n : Option Int) : ChartRowRange :=
  chartDataRange top_n 2

/- ===== Table normalizer: numeric coercion (main, lines 812-813) ===== -/

/-- A scalar cell value of a raw record: string, number, or null. -/
inductive Scalar where
  | null
  | str (s : String)
  | num (q : Rat)
deriving DecidableEq

/-- Value of a decimal digit character, `none` for a non-digit. -/
def charDigit (c : Char) : Option Nat :=
  if 48 ≤ c.toNat ∧ c.toNat ≤ 57 then some (c.toNat - 48) else none

/-- Read a run of digits left to right, returning the accumulated value and
the number of digits consumed; fails on any non-digit character. -/
def parseDigitsAcc : List Char → Nat → Nat → Option (Nat × Nat)
  | [], acc, k => some (acc, k)
  | c :: rest, acc, k =>
    match charDigit c with
    | some d => parseDigitsAcc rest (acc * 10 + d) (k + 1)
    | none => none

/-- Split a character list at the first decimal point, if any. -/
def splitOnDot : List Char → List Char × Option (List Char)
  | [] => ([], none)
  | c :: rest =>
    if c = '.' then ([], some rest)
    else
      let p := splitOnDot rest
      (c :: p.1, p.2)

/-- Parse an unsigned decimal literal into (numerator, number of fractional
digits), so that the value is numerator / 10 ^ fracDigits.  At least one
digit must be present and no other characters are allowed. -/
def parseUnsignedParts (cs : List Char) : Option (Nat × Nat) :=
  let p := splitOnDot cs
  match parseDigitsAcc p.1 0 0 with
  | none => none
  | some iv =>
    match p.2 with
    | none => if iv.2 = 0 then none else some (iv.1, 0)
    | some fracCs =>
      match parseDigitsAcc fracCs 0 0 with
      | none => none
      | some fv =>
        if iv.2 + fv.2 = 0 then none
        else some (iv.1 * 10 ^ fv.2 + fv.1, fv.2)

/-- Modelled from the spec: the decimal-string acceptance of the pandas
library call `pd.to_numeric(..., errors="coerce")` used at src/aporia.py
lines 812-813.  The library itself is outside this repository; the
behaviour follows the coerceNumeric contract of the spec: a signed decimal
literal parses to its value, anything unparseable yields the null marker. -/
def parseDecimalParts (s : String) : Option (Int × Nat) :=
  match s.toList with
  | [] => none
  | c :: rest =>
    if c = '-' then (parseUnsignedParts rest).map (fun p => (-(p.1 : Int), p.2))
    else if c = '+' then (parseUnsignedParts rest).map (fun p => ((p.1 : Int), p.2))
    else (parseUnsignedParts (c :: rest)).map (fun p => ((p.1 : Int), p.2))

/-- Convert parsed (numerator, fractional-digit count) into a rational. -/
def ratOfParts (p : Int × Nat) : Rat := (p.1 : Rat) / (10 : Rat) ^ p.2

/-- Numeric coercion of one scalar cell, as applied to the Revenue and
Spend columns by `pd.to_numeric(..., errors="coerce")` (src/aporia.py lines
812-813): numbers pass through, null stays null, strings are parsed and an
unparseable string becomes the null marker.  The function is total — no
input is an error. -/
def coerceNumeric : Scalar → Option Rat
  | Scalar.null => none
  | Scalar.num q => some q
  | Scalar.str s => (parseDecimalParts s).map ratOfParts

/- ===== Drive file management (lines 99-166) ===== -/

/-- A file in the Drive folder model: opaque id, display name, parent
folder, and trash flag. -/
structure DriveFile where
  fileId : Nat
  name : String
  parent : String
  trashed : Bool
deriving DecidableEq

/-- The Drive query of `find_existing_file` (src/aporia.py line 115):
name equals the requested name, the configured folder is among the parents,
and the file is not trashed. -/
def matchesQuery (name folder_id : String) (f : DriveFile) : Bool :=
  f.name == name && f.parent == folder_id && !f.trashed

/-- `find_existing_file` (src/aporia.py lines 99-121): list the files
matching the query and return the id of the first one, if any. -/
def find_existing_file (files : List DriveFile) (name folder_id : String) :
    Option Nat :=
  match files.filter (matchesQuery name folder_id) with
  | [] => none
  | f :: _ => some f.fileId

/-- `delete_file` (src/aporia.py lines 125-133): remove the file with the
given id from the folder state. -/
def delete_file (files : List DriveFile) (fid : Nat) : List DriveFile :=
  files.filter (fun f => !(f.fileId == fid))

/-- The Drive file produced by the create call of `create_sheet`
(src/aporia.py lines 160-165): requested name, configured parent folder,
not trashed, with a provider-assigned id. -/
def createdFile (newId : Nat) (name folder_id : String) : DriveFile :=
  { fileId := newId, name := name, parent := folder_id, trashed := false }

/-- `create_sheet` (src/aporia.py lines 137-166): in `force` mode, first
look up a same-named file in the configured folder and delete it if found;
then create the new spreadsheet file in that folder.  `newId` stands for
the id the provider assigns to the created file. -/
def create_sheet (files : List DriveFile) (name folder_id : String)
    (force : Bool) (newId : Nat) : List DriveFile :=
  let files1 :=
    if force then
      match find_existing_file files name folder_id with
      | some fid => delete_file files fid
      | none => files
    else files
  files1 ++ [createdFile newId name folder_id]

/- ===== Sheets tab operations (setup_tabs, lines 173-200) ===== -/

/-- One request of the batch built by `setup_tabs`: either the
`updateSheetProperties` title rename or an `addSheet`. -/
inductive TabRequest where
  | updateTitle (sheetId : Nat) (title : String)
  | addSheet (title : String)
deriving DecidableEq

/-- The request list built by `setup_tabs` (src/aporia.py lines 187-196):
the first request renames sheet id 0 to `tab_names[0]`, then one `addSheet`
per remaining name, in order.  For the empty list the Python subscript
`tab_names[0]` raises IndexError while the list is being built, before the
batchUpdate call, which the embedding renders as `none`. -/
def setup_tabs_requests : List String → Option (List TabRequest)
  | [] => none
  | first :: rest =>
    some (TabRequest.updateTitle 0 first :: rest.map TabRequest.addSheet)

/-- A tab (sheet) of a spreadsheet: numeric sheet id and title. -/
structure Sheet where
  sheetId : Nat
  title : String
deriving DecidableEq

/-- Effect of one tab request on the tab list of the spreadsheet: a rename
updates the title of the sheet with the given id; an addSheet appends a new
sheet under a provider-assigned fresh id. -/
def applyTabRequest (tabs : List Sheet) : TabRequest → List Sheet
  | TabRequest.updateTitle sid t =>
    tabs.map (fun s => if s.sheetId == sid then { s with title := t } else s)
  | TabRequest.addSheet t =>
    tabs ++ [{ sheetId := (tabs.foldl (fun m s => max m s.sheetId) 0) + 1, title := t }]

/-- `setup_tabs` run against a spreadsheet state: if building the request
list fails (empty name list), no remote call is made and the state is
returned unchanged alongside `none`; otherwise the batch is applied. -/
def setup_tabs_run (tabs : List Sheet) (names : List String) :
    Option (List TabRequest) × List Sheet :=
  match setup_tabs_requests names with
  | none => (none, tabs)
  | some reqs => (some reqs, reqs.foldl applyTabRequest tabs)

/- ===== Replicator (copy_sheet, lines 716-764) ===== -/

/-- `copy_sheet` (src/aporia.py lines 716-764): look up the source tab by
title (the Python `next(...)` raises StopIteration when absent, rendered as
`none`); the copyTo operation of the provider appends a copy to the destination under a
fresh id `newId` and an auto-generated title `autoTitle`; then a rename
request sets the title of the copied tab to the original `sheet_name`. -/
def copy_sheet (src : List Sheet) (sheet_name : String) (dest : List Sheet)
    (newId : Nat) (autoTitle : String) : Option (List Sheet) :=
  match src.find? (fun s => s.title == sheet_name) with
  | none => none
  | some _ =>
    let afterCopy := dest ++ [{ sheetId := newId, title := autoTitle }]
    some (afterCopy.map
      (fun s => if s.sheetId == newId then { s with title := sheet_name } else s))

/- ===== Data extraction (fetch_jsonbin, lines 74-92) ===== -/

/-- The HTTP request built by `fetch_jsonbin` (src/aporia.py lines 88-90):
fixed URL pattern and a client-side timeout of 30 seconds. -/
structure HttpRequest where
  url : String
  timeoutSeconds : Nat

/-- The request built by `fetch_jsonbin` for a given bin id. -/
def fetch_request (bin_id : String) : HttpRequest :=
  { url := "https://api.jsonbin.io/v3/b/" ++ bin_id ++ "/latest?meta=false",
    timeoutSeconds := 30 }

/-- Outcome of the HTTP round trip: a timeout, or a final response with a
status code and the JSON-decoded body (`none` when the body fails to
decode as JSON). -/
inductive HttpOutcome where
  | timedOut
  | response (status : Nat) (jsonBody : Option (List Scalar))
deriving DecidableEq

/-- The errors `fetch_jsonbin` can raise: requests.Timeout,
requests.HTTPError from `raise_for_status`, or a JSON decode error from
`resp.json()`. -/
inductive FetchError where
  | timeout
  | httpStatus (status : Nat)
  | jsonDecode
deriving DecidableEq

/-- `fetch_jsonbin` (src/aporia.py lines 74-92): a timeout raises; then
`resp.raise_for_status()` raises exactly when the status is 4xx or 5xx
(400 ≤ status < 600 — the contract of the HTTP client); then `resp.json()`
raises when the body is not JSON; otherwise the decoded array is returned.
No exception is caught inside the function. -/
def fetch_jsonbin (outcome : HttpOutcome) : Except FetchError (List Scalar) :=
  match outcome with
  | HttpOutcome.timedOut => Except.error FetchError.timeout
  | HttpOutcome.response st body =>
    if 400 ≤ st ∧ st < 600 then Except.error (FetchError.httpStatus st)
    else
      match body with
      | none => Except.error FetchError.jsonDecode
      | some d => Except.ok d

/-- The fetch stage of `main` (src/aporia.py lines 792-794): both bins are
fetched before any spreadsheet operation; neither call is wrapped in a
handler, so the first error propagates and aborts the stage. -/
def pipeline_fetch_stage (campaign_outcome media_outcome : HttpOutcome) :
    Except FetchError (List Scalar × List Scalar) := do
  let c ← fetch_jsonbin campaign_outcome
  let m ← fetch_jsonbin media_outcome
  pure (c, m)

/- ===== Campaign rename map (main, lines 798-809) ===== -/

/-- The `df_campaign.rename(columns=...)` mapping (src/aporia.py lines
798-809), as (source name, canonical name) pairs in source order. -/
def campaignRenameMap : List (String × String) :=
  [("Platform", "Platform"),
   ("offer", "Offer"),
   ("country", "Country"),
   ("adtitle", "Ad Title"),
   ("Revenue", "Revenue Prediction"),
   ("Leads", "Leads"),
   ("Revenue Per Leads", "Revenue Per Lead"),
   ("top_10_keywords", "Top 10 Keywords")]

/-- Apply the rename map to one column name: a name that is a key of the
map is replaced by its canonical name; any other name is left unchanged
(pandas `rename` semantics). -/
def applyRename (s : String) : String :=
  match campaignRenameMap.find? (fun p => p.1 == s) with
  | some p => p.2
  | none => s

/-- The canonical (post-rename) column names: the values of the map. -/
def canonicalNames : List String := campaignRenameMap.map Prod.snd

/- ===== Theorems ===== -/

/-- C1 counterexample: for `buyers_count = 5` the range planned by
`add_charts` has height `6`, not `5` — `endRow - startRow = rowCount` fails
as stated. -/
theorem chart_range_not_exact_rowCount :
    ¬ ((buyerChartRange (some 5)).endRowIndex -
        (buyerChartRange (some 5)).startRowIndex = 5) := by
  decide

/-- C1 (amended): for every rowCount ≥ 0 and every origin, the chart data
range computed by `add_charts` satisfies
`endRow - startRow = rowCount + 1`: one header row (consumed by the chart option
`headerCount: 1`) plus exactly `rowCount` data rows.  The buyer range is
driven by `buyers_count` and the campaign range by the `top_n` limit. -/
theorem chart_range_covers_count_plus_header (n : Int) (hn : 0 ≤ n) :
    (∀ origin : Int,
      (chartDataRange (some n) origin).endRowIndex -
        (chartDataRange (some n) origin).startRowIndex = n + 1) ∧
    (buyerChartRange (some n)).endRowIndex -
      (buyerChartRange (some n)).startRowIndex = n + 1 ∧
    (campChartRange (some n)).endRowIndex -
      (campChartRange (some n)).startRowIndex = n + 1 := by
  have hmax : max (pyOrZero (some n)) 0 = n := by
    simp [pyOrZero]
    omega
  refine ⟨fun origin => ?_, ?_, ?_⟩ <;>
    simp [chartDataRange, buyerChartRange, campChartRange, hmax] <;> ring

/-- C1 witness: instantiating the amended coverage theorem at
rowCount = 5. -/
theorem chart_range_covers_count_plus_header_witness :
    (buyerChartRange (some 5)).endRowIndex -
      (buyerChartRange (some 5)).startRowIndex = 5 + 1 :=
  (chart_range_covers_count_plus_header 5 (by decide)).2.1

/-- C2: for every supplied row count — zero, negative, or absent — the
chart range of `add_charts` degrades safely: the effective count
`max(count or 0, 0)` is clamped (nonnegative, and `0` whenever the supplied
count is nonpositive or absent), the range height is never negative, and
the range is non-degenerate (`startRow < endRow`). -/
theorem chart_range_nondegenerate (count : Option Int) (origin : Int) :
    (chartDataRange count origin).startRowIndex <
      (chartDataRange count origin).endRowIndex ∧
    0 ≤ max (pyOrZero count) 0 ∧
    (pyOrZero count ≤ 0 →
      (chartDataRange count origin).endRowIndex = origin + 1) ∧
    0 ≤ (chartDataRange count origin).endRowIndex -
      (chartDataRange count origin).startRowIndex := by
  refine ⟨?_, le_max_right _ _, fun hle => ?_, ?_⟩ <;>
    simp [chartDataRange] <;> omega

/-- C2 witness: the clamping and non-degeneracy theorem evaluated at a
negative count, at an absent count, and at zero. -/
theorem chart_range_nondegenerate_witness :
    (chartDataRange (some (-3)) 2).endRowIndex = 3 ∧
    (chartDataRange none 2).endRowIndex = 3 ∧
    (chartDataRange (some 0) 2).startRowIndex <
      (chartDataRange (some 0) 2).endRowIndex :=
  ⟨(chart_range_nondegenerate (some (-3)) 2).2.2.1 (by decide),
   (chart_range_nondegenerate none 2).2.2.1 (by decide),
   (chart_range_nondegenerate (some 0) 2).1⟩

/-- C3: the numeric coercion applied to the Revenue/Spend columns maps the
string "12.5" to the number 12.5, the unparseable string "abc" to the null
marker, and a missing (null) value to the null marker; being a total
function into `Option`, it returns a value or the null marker for every
scalar input, never an error. -/
theorem coerceNumeric_examples :
    coerceNumeric (Scalar.str "12.5") = some ((25 : Rat) / 2) ∧
    coerceNumeric (Scalar.str "abc") = none ∧
    coerceNumeric Scalar.null = none := by
  have h125 : parseDecimalParts "12.5" = some (125, 1) := by decide
  have habc : parseDecimalParts "abc" = none := by decide
  refine ⟨?_, ?_, rfl⟩
  · simp [coerceNumeric, h125, ratOfParts]
    norm_num
  · simp [coerceNumeric, habc]

/-- Helper: a file outside the result of a force-mode `create_sheet` was
removed by the delete step, so its id is the one returned by
`find_existing_file`. -/
theorem create_sheet_result_of_find (files : List DriveFile)
    (name folder_id : String) (newId fid : Nat)
    (hfind : find_existing_file files name folder_id = some fid) :
    create_sheet files name folder_id true newId =
      delete_file files fid ++ [createdFile newId name folder_id] := by
  simp [create_sheet, hfind]

/-- Helper: when the folder listing is nonempty, `find_existing_file`
returns the id of its first element. -/
theorem find_existing_file_of_filter (files : List DriveFile)
    (name folder_id : String) (f1 : DriveFile) (rest : List DriveFile)
    (hq : files.filter (matchesQuery name folder_id) = f1 :: rest) :
    find_existing_file files name folder_id = some f1.fileId := by
  simp [find_existing_file, hq]

/-- C4: in force mode, `create_sheet` deletes a same-named file of the
configured folder when one exists, and never deletes a file that does not
match the trash-excluding, folder-restricted query: every file of the
initial state missing from the result has the requested name, lives in the
configured folder, and is not trashed; and whenever a matching file exists,
some matching file is indeed deleted before the new file is created.
Hypotheses: Drive file ids are unique and the provider-assigned id of the
new file is fresh. -/
theorem create_sheet_force_deletes_only_in_folder (files : List DriveFile)
    (name folder_id : String) (newId : Nat)
    (hnodup : (files.map DriveFile.fileId).Nodup)
    (hfresh : newId ∉ files.map DriveFile.fileId) :
    (∀ f ∈ files, f ∉ create_sheet files name folder_id true newId →
      f.name = name ∧ f.parent = folder_id ∧ f.trashed = false) ∧
    (∀ g ∈ files, matchesQuery name folder_id g = true →
      ∃ f ∈ files, matchesQuery name folder_id f = true ∧
        f ∉ create_sheet files name folder_id true newId) := by
  constructor
  · intro f hf hnot
    cases hfind : find_existing_file files name folder_id with
    | none =>
      exfalso
      apply hnot
      have hres : create_sheet files name folder_id true newId =
          files ++ [createdFile newId name folder_id] := by
        simp [create_sheet, hfind]
      rw [hres]
      exact List.mem_append_left _ hf
    | some fid =>
      rw [create_sheet_result_of_find files name folder_id newId fid hfind] at hnot
      by_cases hid : f.fileId = fid
      · cases hq : files.filter (matchesQuery name folder_id) with
        | nil => simp [find_existing_file, hq] at hfind
        | cons f1 rest =>
          have hfid : f1.fileId = fid := by
            have := find_existing_file_of_filter files name folder_id f1 rest hq
            rw [this] at hfind
            exact Option.some.inj hfind
          have hf1 : f1 ∈ files.filter (matchesQuery name folder_id) := by
            rw [hq]; exact List.mem_cons_self f1 rest
          have hfeq : f = f1 :=
            List.inj_on_of_nodup_map hnodup hf (List.mem_filter.mp hf1).1
              (by rw [hid, hfid])
          have hq1 : (f1.name = name ∧ f1.parent = folder_id) ∧ f1.trashed = false := by
            simpa [matchesQuery] using (List.mem_filter.mp hf1).2
          rw [hfeq]
          exact ⟨hq1.1.1, hq1.1.2, hq1.2⟩
      · exfalso
        apply hnot
        apply List.mem_append_left
        exact List.mem_filter.mpr ⟨hf, by simp [hid]⟩
  · intro g hg hQ
    cases hq : files.filter (matchesQuery name folder_id) with
    | nil =>
      exfalso
      have hmem : g ∈ files.filter (matchesQuery name folder_id) :=
        List.mem_filter.mpr ⟨hg, hQ⟩
      rw [hq] at hmem
      exact List.not_mem_nil g hmem
    | cons f1 rest =>
      have hfind := find_existing_file_of_filter files name folder_id f1 rest hq
      have hf1 : f1 ∈ files.filter (matchesQuery name folder_id) := by
        rw [hq]; exact List.mem_cons_self f1 rest
      refine ⟨f1, (List.mem_filter.mp hf1).1, (List.mem_filter.mp hf1).2, ?_⟩
      rw [create_sheet_result_of_find files name folder_id newId f1.fileId hfind]
      intro hmem
      rcases List.mem_append.mp hmem with h1 | h2
      · have := (List.mem_filter.mp h1).2
        simp at this
      · have heq : f1 = createdFile newId name folder_id := by
          simpa using h2
        apply hfresh
        have hid : f1.fileId = newId := by rw [heq]; rfl
        exact hid ▸ List.mem_map_of_mem DriveFile.fileId (List.mem_filter.mp hf1).1

/-- C4 witness: with files named X both inside folder F and in another
folder G, force-mode creation deletes a matching file of F. -/
theorem create_sheet_force_deletes_only_in_folder_witness :
    ∃ f ∈ [{ fileId := 1, name := "X", parent := "F", trashed := false },
           { fileId := 2, name := "X", parent := "G", trashed := false },
           ({ fileId := 3, name := "X", parent := "F", trashed := true } : DriveFile)],
      matchesQuery "X" "F" f = true ∧
      f ∉ create_sheet
          [{ fileId := 1, name := "X", parent := "F", trashed := false },
           { fileId := 2, name := "X", parent := "G", trashed := false },
           ({ fileId := 3, name := "X", parent := "F", trashed := true } : DriveFile)]
          "X" "F" true 9 :=
  (create_sheet_force_deletes_only_in_folder
      [{ fileId := 1, name := "X", parent := "F", trashed := false },
       { fileId := 2, name := "X", parent := "G", trashed := false },
       ({ fileId := 3, name := "X", parent := "F", trashed := true } : DriveFile)]
      "X" "F" 9 (by decide) (by decide)).2
    { fileId := 1, name := "X", parent := "F", trashed := false }
    (by decide) (by decide)

/-- C10: when the folder listing for the requested name returns first match
f1 followed by further matches, force-mode `create_sheet` removes exactly
f1: f1 is gone from the result, any file of the initial state missing from
the result is f1, and every other match of the listing is still present.
Hypotheses: Drive file ids are unique and the id of the created file is
fresh. -/
theorem create_sheet_force_deletes_exactly_first (files : List DriveFile)
    (name folder_id : String) (newId : Nat) (f1 : DriveFile)
    (rest : List DriveFile)
    (hnodup : (files.map DriveFile.fileId).Nodup)
    (hfresh : newId ∉ files.map DriveFile.fileId)
    (hq : files.filter (matchesQuery name folder_id) = f1 :: rest) :
    f1 ∉ create_sheet files name folder_id true newId ∧
    (∀ f ∈ files, f ∉ create_sheet files name folder_id true newId → f = f1) ∧
    (∀ f ∈ rest, f ∈ create_sheet files name folder_id true newId) := by
  have hfind := find_existing_file_of_filter files name folder_id f1 rest hq
  have hres := create_sheet_result_of_find files name folder_id newId f1.fileId hfind
  have hf1 : f1 ∈ files.filter (matchesQuery name folder_id) := by
    rw [hq]; exact List.mem_cons_self f1 rest
  have hf1mem : f1 ∈ files := (List.mem_filter.mp hf1).1
  have hfilterNodup : (f1 :: rest).Nodup := by
    rw [← hq]
    exact List.Nodup.filter _ (List.Nodup.of_map _ hnodup)
  refine ⟨?_, ?_, ?_⟩
  · rw [hres]
    intro hmem
    rcases List.mem_append.mp hmem with h1 | h2
    · have := (List.mem_filter.mp h1).2
      simp at this
    · have heq : f1 = createdFile newId name folder_id := by simpa using h2
      apply hfresh
      have hid : f1.fileId = newId := by rw [heq]; rfl
      exact hid ▸ List.mem_map_of_mem DriveFile.fileId hf1mem
  · intro f hf hnot
    rw [hres] at hnot
    by_cases hid : f.fileId = f1.fileId
    · exact List.inj_on_of_nodup_map hnodup hf hf1mem hid
    · exfalso
      apply hnot
      apply List.mem_append_left
      exact List.mem_filter.mpr ⟨hf, by simp [hid]⟩
  · intro f hfrest
    have hfmem : f ∈ files := by
      have : f ∈ files.filter (matchesQuery name folder_id) := by
        rw [hq]; exact List.mem_cons_of_mem f1 hfrest
      exact (List.mem_filter.mp this).1
    have hne : f ≠ f1 := by
      intro h
      exact (List.nodup_cons.mp hfilterNodup).1 (h ▸ hfrest)
    have hidne : f.fileId ≠ f1.fileId := by
      intro h
      exact hne (List.inj_on_of_nodup_map hnodup hfmem hf1mem h)
    rw [hres]
    apply List.mem_append_left
    exact List.mem_filter.mpr ⟨hfmem, by simp [hidne]⟩

/-- C10 witness: two matching files in the folder; the first is deleted,
the second survives. -/
theorem create_sheet_force_deletes_exactly_first_witness :
    ({ fileId := 1, name := "X", parent := "F", trashed := false } : DriveFile) ∉
      create_sheet
        [{ fileId := 1, name := "X", parent := "F", trashed := false },
         { fileId := 2, name := "Y", parent := "F", trashed := false },
         ({ fileId := 3, name := "X", parent := "F", trashed := false } : DriveFile)]
        "X" "F" true 9 ∧
    ({ fileId := 3, name := "X", parent := "F", trashed := false } : DriveFile) ∈
      create_sheet
        [{ fileId := 1, name := "X", parent := "F", trashed := false },
         { fileId := 2, name := "Y", parent := "F", trashed := false },
         ({ fileId := 3, name := "X", parent := "F", trashed := false } : DriveFile)]
        "X" "F" true 9 :=
  ⟨(create_sheet_force_deletes_exactly_first
      [{ fileId := 1, name := "X", parent := "F", trashed := false },
       { fileId := 2, name := "Y", parent := "F", trashed := false },
       ({ fileId := 3, name := "X", parent := "F", trashed := false } : DriveFile)]
      "X" "F" 9 { fileId := 1, name := "X", parent := "F", trashed := false }
      [{ fileId := 3, name := "X", parent := "F", trashed := false }]
      (by decide) (by decide) (by decide)).1,
   (create_sheet_force_deletes_exactly_first
      [{ fileId := 1, name := "X", parent := "F", trashed := false },
       { fileId := 2, name := "Y", parent := "F", trashed := false },
       ({ fileId := 3, name := "X", parent := "F", trashed := false } : DriveFile)]
      "X" "F" 9 { fileId := 1, name := "X", parent := "F", trashed := false }
      [{ fileId := 3, name := "X", parent := "F", trashed := false }]
      (by decide) (by decide) (by decide)).2.2
     { fileId := 3, name := "X", parent := "F", trashed := false } (by decide)⟩

/-- Helper: every canonical column name is a fixed point of the rename
map, checked by evaluation over the eight entries. -/
theorem canonical_names_fixed : ∀ c ∈ canonicalNames, applyRename c = c := by
  decide

/-- Helper: the rename map is idempotent pointwise: renaming a renamed
name changes nothing, since every value of the map is a fixed point. -/
theorem applyRename_idem (s : String) :
    applyRename (applyRename s) = applyRename s := by
  cases hfind : campaignRenameMap.find? (fun p => p.1 == s) with
  | none =>
    have hs : applyRename s = s := by simp [applyRename, hfind]
    rw [hs, hs]
  | some p =>
    have hp : p ∈ campaignRenameMap := List.mem_of_find?_eq_some hfind
    have hcanon : p.2 ∈ canonicalNames := List.mem_map_of_mem Prod.snd hp
    have h2 : applyRename s = p.2 := by simp [applyRename, hfind]
    rw [h2]
    exact canonical_names_fixed p.2 hcanon

/-- C5: the campaign-column rename map is idempotent — every canonical
(post-rename) column name is a fixed point of the map, and re-applying the
map to an already-renamed header changes nothing. -/
theorem rename_map_idempotent :
    (∀ c ∈ canonicalNames, applyRename c = c) ∧
    (∀ header : List String,
      (header.map applyRename).map applyRename = header.map applyRename) := by
  refine ⟨canonical_names_fixed, fun header => ?_⟩
  induction header with
  | nil => rfl
  | cons a t ih => simp [ih, applyRename_idem a]

/-- C5 witness: the fixed-point property at the canonical name produced
from the colliding source name Revenue, and map idempotence on a concrete
renamed header. -/
theorem rename_map_idempotent_witness :
    applyRename "Revenue Prediction" = "Revenue Prediction" ∧
    ((["Platform", "Revenue"].map applyRename).map applyRename =
      ["Platform", "Revenue"].map applyRename) :=
  ⟨rename_map_idempotent.1 "Revenue Prediction" (by decide),
   rename_map_idempotent.2 ["Platform", "Revenue"]⟩

/-- C6: for every non-empty ordered tab-name list, `setup_tabs` builds a
batch whose first request renames the implicit first tab (sheet id 0) to
the first name, followed by exactly one addSheet request per remaining
name, in list order. -/
theorem setup_tabs_requests_shape (first : String) (rest : List String) :
    ∃ reqs, setup_tabs_requests (first :: rest) = some reqs ∧
      reqs.head? = some (TabRequest.updateTitle 0 first) ∧
      reqs.tail = rest.map TabRequest.addSheet ∧
      reqs.length = (first :: rest).length := by
  refine ⟨TabRequest.updateTitle 0 first :: rest.map TabRequest.addSheet,
    rfl, rfl, rfl, ?_⟩
  simp

/-- C9: tab setup requires a non-empty name list: for the empty list the
request construction fails (the out-of-bounds first-name subscript) before
any remote call, leaving the spreadsheet state unchanged; for every
non-empty list the operation is well-defined. -/
theorem setup_tabs_empty_vs_nonempty (tabs : List Sheet) :
    (setup_tabs_run tabs []).1 = none ∧
    (setup_tabs_run tabs []).2 = tabs ∧
    ∀ (n : String) (ns : List String),
      ((setup_tabs_run tabs (n :: ns)).1).isSome = true :=
  ⟨rfl, rfl, fun _ _ => rfl⟩

/-- C7: replicating a tab that exists in the source spreadsheet yields a
destination tab literally titled with the original name: the copy arrives
under a provider-generated title, and the subsequent rename request sets it
to the original name, whatever the auto-generated title was; pre-existing
destination tabs are untouched.  Hypotheses: the copied tab exists in the
source and the provider assigns a fresh sheet id in the destination. -/
theorem copy_sheet_renames_copy (src dest : List Sheet)
    (nm autoTitle : String) (newId : Nat)
    (hpresent : nm ∈ src.map Sheet.title)
    (hfresh : newId ∉ dest.map Sheet.sheetId) :
    ∃ d, copy_sheet src nm dest newId autoTitle = some d ∧
      ({ sheetId := newId, title := nm } : Sheet) ∈ d ∧
      ∀ s ∈ dest, s ∈ d := by
  obtain ⟨t, ht, htt⟩ := List.mem_map.mp hpresent
  cases hfind : src.find? (fun s => s.title == nm) with
  | none =>
    exfalso
    have := List.find?_eq_none.mp hfind t ht
    simp [htt] at this
  | some t0 =>
    refine ⟨(dest ++ [({ sheetId := newId, title := autoTitle } : Sheet)]).map
      (fun s : Sheet => if s.sheetId == newId then { s with title := nm } else s),
      by simp [copy_sheet, hfind], ?_, ?_⟩
    · have hmem : ({ sheetId := newId, title := autoTitle } : Sheet) ∈
          dest ++ [({ sheetId := newId, title := autoTitle } : Sheet)] := by simp
      have hmap := List.mem_map_of_mem
        (fun s : Sheet => if s.sheetId == newId then { s with title := nm } else s)
        hmem
      simp only [beq_self_eq_true, if_pos] at hmap
      exact hmap
    · intro s hs
      have hid : s.sheetId ≠ newId := by
        intro h
        exact hfresh (h ▸ List.mem_map_of_mem Sheet.sheetId hs)
      have hmem : s ∈ dest ++ [({ sheetId := newId, title := autoTitle } : Sheet)] :=
        List.mem_append_left _ hs
      have hmap := List.mem_map_of_mem
        (fun x : Sheet => if x.sheetId == newId then { x with title := nm } else x)
        hmem
      simpa [hid] using hmap

/-- C7 witness: copying the tab Report into a destination with one other
tab produces a destination tab literally titled Report under the fresh id,
despite the auto-generated copy title. -/
theorem copy_sheet_renames_copy_witness :
    ∃ d, copy_sheet [{ sheetId := 0, title := "Report" }] "Report"
        [{ sheetId := 0, title := "Other" }] 7 "Copy of Report" = some d ∧
      ({ sheetId := 7, title := "Report" } : Sheet) ∈ d ∧
      ∀ s ∈ [({ sheetId := 0, title := "Other" } : Sheet)], s ∈ d :=
  copy_sheet_renames_copy [{ sheetId := 0, title := "Report" }]
    [{ sheetId := 0, title := "Other" }] "Report" "Copy of Report" 7
    (by decide) (by decide)

/-- C8 counterexample: a non-2xx response does not always raise — the
status check of the HTTP client raises only for 4xx/5xx, so a final 303
response with a decodable JSON body is returned as data. -/
theorem fetch_ok_on_303 :
    ¬ (200 ≤ 303 ∧ 303 < 300) ∧
    fetch_jsonbin (HttpOutcome.response 303 (some [])) = Except.ok [] :=
  ⟨by decide, rfl⟩

/-- C8 (amended): every fetch request carries a client-side timeout of
exactly 30 seconds; a timeout and every 4xx/5xx response raise an error;
and an error of either fetch is never caught locally — it propagates out of
the fetch stage before any spreadsheet operation. -/
theorem fetch_timeout_and_error_policy (bin_id : String) :
    (fetch_request bin_id).timeoutSeconds = 30 ∧
    fetch_jsonbin HttpOutcome.timedOut = Except.error FetchError.timeout ∧
    (∀ (st : Nat) (body : Option (List Scalar)), 400 ≤ st → st < 600 →
      fetch_jsonbin (HttpOutcome.response st body) =
        Except.error (FetchError.httpStatus st)) ∧
    (∀ (o1 o2 : HttpOutcome) (e : FetchError),
      fetch_jsonbin o1 = Except.error e →
      pipeline_fetch_stage o1 o2 = Except.error e) := by
  refine ⟨rfl, rfl, fun st body h1 h2 => ?_, fun o1 o2 e he => ?_⟩
  · simp [fetch_jsonbin, h1, h2]
  · show (fetch_jsonbin o1 >>= fun c =>
      fetch_jsonbin o2 >>= fun m => pure (c, m)) = Except.error e
    rw [he]
    rfl

/-- C8 witness: the error policy evaluated at a 500 response and at a
timed-out first fetch of the pipeline stage. -/
theorem fetch_timeout_and_error_policy_witness :
    fetch_jsonbin (HttpOutcome.response 500 none) =
      Except.error (FetchError.httpStatus 500) ∧
    pipeline_fetch_stage HttpOutcome.timedOut
        (HttpOutcome.response 200 (some [])) =
      Except.error FetchError.timeout :=
  ⟨(fetch_timeout_and_error_policy "b").2.2.1 500 none (by decide) (by decide),
   (fetch_timeout_and_error_policy "b").2.2.2 HttpOutcome.timedOut
     (HttpOutcome.response 200 (some [])) FetchError.timeout rfl⟩

end Aporia
